import Mathlib

/-!
Shallow embedding of src/pipeline/training_pipeline.py.

The script is pure sequencing glue over two opaque collaborator classes:

  if __name__ == "__main__":
      data_processor = DataProcessing("artifacts/raw/data.csv")
      data_processor.run()
      trainer = Model_Training()
      trainer.run()

The collaborators DataProcessing and Model_Training are external to this
repository: only their consumed interface (constructors and zero-argument
run operations) is visible here.  We therefore model each of the four
calls the script can make as an opaque behavior that either returns
normally or raises an exception, and embed the script as a function from
those behaviors (plus the entry-point guard) to the trace of calls it
issues and its final outcome.
-/

/-- Identity of a raised Python exception, kept abstract as a string. -/
abbrev Err := String

/-- Value returned by a run operation; the script never consumes it. -/
abbrev Val := Nat

/-- Observable calls the script issues on its two collaborators, in the
order it begins them.  A construct event records that the constructor was
entered (it may still raise); a run event records that the run operation
was entered. -/
inductive Event where
  | constructDP (path : String)
  | runDP
  | constructMT
  | runMT
  deriving DecidableEq

/-- Opaque behaviors of the two collaborator classes.  Each call either
returns normally or raises an exception; the DataProcessing constructor
additionally observes the path string it is given. -/
structure Env where
  dpInit : String → Except Err Unit
  dpRun : Except Err Val
  mtInit : Except Err Unit
  mtRun : Except Err Val

/-- Result of an execution of the script: normal termination, or
termination by an uncaught exception. -/
abbrev Outcome := Except Err Unit

/-- Process exit status for an outcome: 0 on normal termination, 1 when
an uncaught exception terminates the interpreter. -/
def exitCode : Outcome → Nat
  | .ok _ => 0
  | .error _ => 1

/-- The literal path the script passes to the DataProcessing constructor
on line 5 of training_pipeline.py. -/
def rawDataPath : String := "artifacts/raw/data.csv"

/-- Embedding of training_pipeline.py.  When the entry-point guard holds,
the script constructs DataProcessing with the literal path, invokes its
run operation, then constructs Model_Training and invokes its run
operation; the first call that raises aborts the sequence and the
exception propagates as the outcome.  When the module is merely imported
the guard is false and nothing runs.  The result pairs the trace of calls
begun with the final outcome. -/
def trainingPipeline (isMain : Bool) (env : Env) : List Event × Outcome :=
  if isMain then
    match env.dpInit rawDataPath with
    | .error e => ([.constructDP rawDataPath], .error e)
    | .ok _ =>
      match env.dpRun with
      | .error e => ([.constructDP rawDataPath, .runDP], .error e)
      | .ok _ =>
        match env.mtInit with
        | .error e => ([.constructDP rawDataPath, .runDP, .constructMT], .error e)
        | .ok _ =>
          match env.mtRun with
          | .error e =>
            ([.constructDP rawDataPath, .runDP, .constructMT, .runMT], .error e)
          | .ok _ =>
            ([.constructDP rawDataPath, .runDP, .constructMT, .runMT], .ok ())
  else ([], .ok ())

/-- Environment in which every call returns normally. -/
def envOK : Env :=
  { dpInit := fun _ => .ok (), dpRun := .ok 0, mtInit := .ok (), mtRun := .ok 0 }

/-- Environment in which the DataProcessing run operation raises. -/
def envDPRunFail : Env :=
  { dpInit := fun _ => .ok (), dpRun := .error "boom", mtInit := .ok (),
    mtRun := .ok 0 }

/-- Environment in which the Model_Training run operation raises. -/
def envMTRunFail : Env :=
  { dpInit := fun _ => .ok (), dpRun := .ok 0, mtInit := .ok (),
    mtRun := .error "boom" }

/-- Environment in which the DataProcessing constructor raises. -/
def envDPInitFail : Env :=
  { dpInit := fun _ => .error "boom", dpRun := .ok 0, mtInit := .ok (),
    mtRun := .ok 0 }

/-- Environment in which the Model_Training constructor raises. -/
def envMTInitFail : Env :=
  { dpInit := fun _ => .ok (), dpRun := .ok 0, mtInit := .error "boom",
    mtRun := .ok 0 }

/-- C1: when executed as the entry point, every construction of the
DataProcessing collaborator in the trace uses exactly the literal string
"artifacts/raw/data.csv" as its single constructor argument. -/
theorem constructDP_path_unique (isMain : Bool) (env : Env) (p : String)
    (h : Event.constructDP p ∈ (trainingPipeline isMain env).1) :
    p = "artifacts/raw/data.csv" := by
  unfold trainingPipeline at h
  repeat' split at h
  all_goals simp_all [rawDataPath]

/-- C1 witness: in the all-succeeding environment the trace does contain a
DataProcessing construction, and its argument is the literal path. -/
theorem constructDP_path_unique_witness :
    Event.constructDP "artifacts/raw/data.csv" ∈ (trainingPipeline true envOK).1 ∧
    "artifacts/raw/data.csv" = "artifacts/raw/data.csv" :=
  ⟨by decide, constructDP_path_unique true envOK "artifacts/raw/data.csv" (by decide)⟩

/-- C2: if the Model_Training collaborator is constructed or its run
operation begins, then the DataProcessing run operation was invoked and
returned normally first: the trace starts with the DataProcessing
construction, then its run, then the Model_Training construction, and
every Model_Training event lies at or after that construction. -/
theorem training_after_dp_run (isMain : Bool) (env : Env)
    (h : Event.constructMT ∈ (trainingPipeline isMain env).1 ∨
         Event.runMT ∈ (trainingPipeline isMain env).1) :
    ∃ v rest, env.dpRun = Except.ok v ∧
      (trainingPipeline isMain env).1 =
        Event.constructDP rawDataPath :: Event.runDP :: Event.constructMT :: rest := by
  unfold trainingPipeline at *
  repeat' split at h
  all_goals simp_all

/-- C2 witness: in the all-succeeding environment Model_Training is
constructed, and the theorem yields the ordered trace prefix. -/
theorem training_after_dp_run_witness :
    ∃ v rest, envOK.dpRun = Except.ok v ∧
      (trainingPipeline true envOK).1 =
        Event.constructDP rawDataPath :: Event.runDP :: Event.constructMT :: rest :=
  training_after_dp_run true envOK (Or.inl (by decide))

/-- C3: when executed as the entry point and no exception is raised, each
collaborator run operation appears exactly once in the trace. -/
theorem run_invoked_exactly_once (env : Env)
    (h : (trainingPipeline true env).2 = Except.ok ()) :
    (trainingPipeline true env).1.count Event.runDP = 1 ∧
    (trainingPipeline true env).1.count Event.runMT = 1 := by
  unfold trainingPipeline at *
  repeat' split at h
  all_goals simp_all

/-- C3 witness: the all-succeeding environment terminates normally, and
each run operation is counted once. -/
theorem run_invoked_exactly_once_witness :
    (trainingPipeline true envOK).1.count Event.runDP = 1 ∧
    (trainingPipeline true envOK).1.count Event.runMT = 1 :=
  run_invoked_exactly_once envOK rfl

/-- C4: if the DataProcessing run operation raises, the Model_Training
collaborator is never constructed, its run operation is never invoked,
and the script terminates with that same error. -/
theorem dp_run_raises_no_training (env : Env) (e : Err)
    (hinit : env.dpInit rawDataPath = Except.ok ())
    (hrun : env.dpRun = Except.error e) :
    Event.constructMT ∉ (trainingPipeline true env).1 ∧
    Event.runMT ∉ (trainingPipeline true env).1 ∧
    (trainingPipeline true env).2 = Except.error e := by
  simp [trainingPipeline, hinit, hrun]

/-- C4 witness: in the environment where the DataProcessing run raises,
no Model_Training event occurs and the outcome is that error. -/
theorem dp_run_raises_no_training_witness :
    Event.constructMT ∉ (trainingPipeline true envDPRunFail).1 ∧
    Event.runMT ∉ (trainingPipeline true envDPRunFail).1 ∧
    (trainingPipeline true envDPRunFail).2 = Except.error "boom" :=
  dp_run_raises_no_training envDPRunFail "boom" rfl rfl

/-- C5: an exception raised by either run operation propagates out of the
script unmodified (the outcome carries exactly that exception) and the
process terminates with a non-zero exit status. -/
theorem run_exception_propagates (env : Env) (e : Err) :
    (env.dpInit rawDataPath = Except.ok () → env.dpRun = Except.error e →
      (trainingPipeline true env).2 = Except.error e ∧
      exitCode (trainingPipeline true env).2 ≠ 0) ∧
    (∀ v, env.dpInit rawDataPath = Except.ok () → env.dpRun = Except.ok v →
      env.mtInit = Except.ok () → env.mtRun = Except.error e →
      (trainingPipeline true env).2 = Except.error e ∧
      exitCode (trainingPipeline true env).2 ≠ 0) := by
  constructor
  · intro h1 h2
    simp [trainingPipeline, h1, h2, exitCode]
  · intro v h1 h2 h3 h4
    simp [trainingPipeline, h1, h2, h3, h4, exitCode]

/-- C5 witness: with a raising DataProcessing run, and separately with a
raising Model_Training run, the same exception is the outcome and the
exit status is non-zero. -/
theorem run_exception_propagates_witness :
    ((trainingPipeline true envDPRunFail).2 = Except.error "boom" ∧
      exitCode (trainingPipeline true envDPRunFail).2 ≠ 0) ∧
    ((trainingPipeline true envMTRunFail).2 = Except.error "boom" ∧
      exitCode (trainingPipeline true envMTRunFail).2 ≠ 0) :=
  ⟨(run_exception_propagates envDPRunFail "boom").1 rfl rfl,
   (run_exception_propagates envMTRunFail "boom").2 0 rfl rfl rfl rfl⟩

/-- C6: if every call returns normally, the script terminates with
outcome ok (exit status zero) and the trace is exactly the four calls in
order, ending with the Model_Training run: no further action occurs. -/
theorem success_exit_zero (env : Env) (v w : Val)
    (h1 : env.dpInit rawDataPath = Except.ok ())
    (h2 : env.dpRun = Except.ok v)
    (h3 : env.mtInit = Except.ok ())
    (h4 : env.mtRun = Except.ok w) :
    trainingPipeline true env =
      ([Event.constructDP rawDataPath, Event.runDP, Event.constructMT, Event.runMT],
       Except.ok ()) ∧
    exitCode (trainingPipeline true env).2 = 0 := by
  simp [trainingPipeline, h1, h2, h3, h4, exitCode]

/-- C6 witness: the all-succeeding environment yields the four-call trace
and exit status zero. -/
theorem success_exit_zero_witness :
    trainingPipeline true envOK =
      ([Event.constructDP rawDataPath, Event.runDP, Event.constructMT, Event.runMT],
       Except.ok ()) ∧
    exitCode (trainingPipeline true envOK).2 = 0 :=
  success_exit_zero envOK 0 0 rfl rfl rfl rfl

/-- C7: when the module is merely imported (the entry-point guard is
false), neither collaborator is constructed, neither run operation is
invoked, and the module evaluation completes normally. -/
theorem import_only_no_calls (env : Env) :
    trainingPipeline false env = ([], Except.ok ()) := by
  simp [trainingPipeline]

/-- C8: the script never consumes the DataProcessing run return value:
two executions whose DataProcessing run returns different values (raising
in neither) have identical traces and identical outcomes, hence identical
Model_Training construction, run invocation, and exit status. -/
theorem dp_return_value_not_consumed (env : Env) (v1 v2 : Val) :
    trainingPipeline true { env with dpRun := Except.ok v1 } =
    trainingPipeline true { env with dpRun := Except.ok v2 } := by
  cases hdi : env.dpInit rawDataPath <;>
    cases hmi : env.mtInit <;>
      cases hmr : env.mtRun <;>
        simp [trainingPipeline, hdi, hmi, hmr]

/-- C9: if the DataProcessing constructor raises, neither run operation
is invoked, the Model_Training collaborator is never constructed, and the
script terminates with that error. -/
theorem dp_ctor_raises (env : Env) (e : Err)
    (h : env.dpInit rawDataPath = Except.error e) :
    trainingPipeline true env = ([Event.constructDP rawDataPath], Except.error e) ∧
    Event.runDP ∉ (trainingPipeline true env).1 ∧
    Event.constructMT ∉ (trainingPipeline true env).1 ∧
    Event.runMT ∉ (trainingPipeline true env).1 := by
  simp [trainingPipeline, h]

/-- C9 witness: in the environment where the DataProcessing constructor
raises, the trace is that single construction and the outcome the error. -/
theorem dp_ctor_raises_witness :
    trainingPipeline true envDPInitFail =
      ([Event.constructDP rawDataPath], Except.error "boom") ∧
    Event.runDP ∉ (trainingPipeline true envDPInitFail).1 ∧
    Event.constructMT ∉ (trainingPipeline true envDPInitFail).1 ∧
    Event.runMT ∉ (trainingPipeline true envDPInitFail).1 :=
  dp_ctor_raises envDPInitFail "boom" rfl

/-- C10: if the Model_Training constructor raises after the
DataProcessing run returned normally, the Model_Training run is never
invoked and the script terminates with that error, but the DataProcessing
run had already completed: its event stays in the trace, so its side
effects are not undone and the pipeline is not atomic across the steps. -/
theorem mt_ctor_raises_after_dp (env : Env) (e : Err) (v : Val)
    (h1 : env.dpInit rawDataPath = Except.ok ())
    (h2 : env.dpRun = Except.ok v)
    (h3 : env.mtInit = Except.error e) :
    trainingPipeline true env =
      ([Event.constructDP rawDataPath, Event.runDP, Event.constructMT],
       Except.error e) ∧
    Event.runMT ∉ (trainingPipeline true env).1 ∧
    Event.runDP ∈ (trainingPipeline true env).1 := by
  simp [trainingPipeline, h1, h2, h3]

/-- C10 witness: in the environment where the Model_Training constructor
raises, the DataProcessing run event is in the trace, the Model_Training
run is not, and the outcome is the error. -/
theorem mt_ctor_raises_after_dp_witness :
    trainingPipeline true envMTInitFail =
      ([Event.constructDP rawDataPath, Event.runDP, Event.constructMT],
       Except.error "boom") ∧
    Event.runMT ∉ (trainingPipeline true envMTInitFail).1 ∧
    Event.runDP ∈ (trainingPipeline true envMTInitFail).1 :=
  mt_ctor_raises_after_dp envMTInitFail "boom" 0 rfl rfl rfl
